import Mathlib

/-!
Verification of the retry-and-backoff engine of min-retry (src/index.js).

A shallow embedding of the retry-and-backoff decision engine in
`src/index.js`.  Pure predicates (`isRetryableStatus`, `isRetryableError`,
the `RateLimit-Reset` wait computation) are translated directly from the
source.  The attempt loop delegates to the external `async-retry`
dependency, which is not part of this repository; it is modelled from the
specification's description of that collaborator (bounded attempt count,
minimum delay, growth factor, a `bail` escape that stops retrying
immediately, and re-raising the original error once the bound is
exhausted).

Host-environment behaviour is passed in as parameters: `parseDate` stands
for JavaScript `new Date(s).getTime()` (returning `none` for an invalid
date, i.e. `NaN`), and `now` stands for `Date.now()`.  Machine side
effects (calling the wrapped operation, sleeping) are recorded in an
explicit event trace so that invocation counts and wait ordering can be
stated.
-/

namespace MinRetry

/-- An HTTP response as the engine sees it: a `status` together with the
single header the engine ever reads (`RateLimit-Reset`, `none` when
absent) and an opaque `body` standing for all remaining identity of the
response object. -/
structure Response where
  status : Int
  rateLimitReset : Option String
  body : String
deriving Repr, DecidableEq

/-- A thrown JavaScript value, as far as the classifier inspects it:
whether it is an `Error` instance (`is(Error)`), its `name` property, and
its `message`. -/
structure JsError where
  isError : Bool
  name : String
  message : String
deriving Repr, DecidableEq

/-- Outcome of one invocation of the wrapped operation: the promise
either fulfills with a response or rejects with a thrown value. -/
inductive FetchOutcome where
  | ok (res : Response)
  | thrown (e : JsError)
deriving Repr, DecidableEq

/-- From src/index.js: `const knownErrors = ['RetryableError', 'FetchError', 'AbortError']`. -/
def knownErrors : List String := ["RetryableError", "FetchError", "AbortError"]

/-- From src/index.js: `const instanceOf = propEq('name')` — checks the
`name` property of the error against a string. -/
def instanceOfName (s : String) (e : JsError) : Bool := e.name == s

/-- From src/index.js:
`const isRetryableError = both(is(Error), anyPass(map(instanceOf, knownErrors)))`. -/
def isRetryableError (e : JsError) : Bool :=
  e.isError && knownErrors.any (fun s => instanceOfName s e)

/-- From src/index.js:
`const isRetryableStatus = anyPass([status => status >= 500 && status < 600, status => status === 429])`. -/
def isRetryableStatus (status : Int) : Bool :=
  (decide (500 ≤ status) && decide (status < 600)) || (status == 429)

/-- The synthetic error constructed by `forceRetry` in src/index.js:
`new RetryableError('Retrying...')`, whose constructor sets
`this.name = 'RetryableError'`. -/
def retryableError : JsError :=
  { isError := true, name := "RetryableError", message := "Retrying..." }

/-- JavaScript whitespace accepted by `parseInt` before the number. -/
def isJsSpace (c : Char) : Bool :=
  c == ' ' || c == '\t' || c == '\n' || c == '\r' || c == '\x0B' || c == '\x0C'

/-- Value of one digit character under the given radix (10, or 16 after a
`0x`/`0X` prefix), as JavaScript `parseInt` accepts them. -/
def digitValue (radix : Nat) (c : Char) : Option Nat :=
  let v : Option Nat :=
    if '0' ≤ c ∧ c ≤ '9' then some (c.toNat - '0'.toNat)
    else if 'a' ≤ c ∧ c ≤ 'f' then some (c.toNat - 'a'.toNat + 10)
    else if 'A' ≤ c ∧ c ≤ 'F' then some (c.toNat - 'A'.toNat + 10)
    else none
  match v with
  | some n => if n < radix then some n else none
  | none => none

/-- JavaScript `parseInt(s)` (radix argument omitted, as in
src/index.js): skip leading whitespace, take an optional sign, detect a
`0x`/`0X` hexadecimal prefix, read the longest prefix of digits, and
return `NaN` (here `none`) when no digit was read. -/
def jsParseInt (s : String) : Option Int :=
  let cs0 := s.toList.dropWhile isJsSpace
  let sign : Int := match cs0 with
    | '-' :: _ => -1
    | _ => 1
  let cs1 := match cs0 with
    | '-' :: rest => rest
    | '+' :: rest => rest
    | _ => cs0
  let radix : Nat := match cs1 with
    | '0' :: 'x' :: _ => 16
    | '0' :: 'X' :: _ => 16
    | _ => 10
  let cs2 := match cs1 with
    | '0' :: 'x' :: rest => rest
    | '0' :: 'X' :: rest => rest
    | _ => cs1
  let digits := cs2.takeWhile (fun c => (digitValue radix c).isSome)
  if digits.isEmpty then none
  else some (sign * Int.ofNat
    (digits.foldl (fun acc c => acc * radix + ((digitValue radix c).getD 0)) 0))

/-- From src/index.js: `const until = timestampMs => timestampMs - Date.now()`. -/
def untilMs (now timestampMs : Int) : Int := timestampMs - now

/-- The wait passed to `setTimeout` for one `RateLimit-Reset` value, in
milliseconds (src/index.js lines 69–71): when `isDeltaSeconds` holds
(i.e. `parseInt` is not `NaN`) the wait is `parseInt(v) * 1000`;
otherwise it is `new Date(v).getTime() - Date.now()`, which is `NaN`
(modelled as `none`) when the string is not a parsable date. -/
def waitValue (parseDate : String → Option Int) (now : Int) (s : String) : Option Int :=
  match jsParseInt s with
  | some n => some (n * 1000)
  | none =>
    match parseDate s with
    | some ts => some (untilMs now ts)
    | none => none

/-- The forced rate-limit wait for one fulfilled response (src/index.js
lines 67–72): performed only when the `RateLimit-Reset` header is truthy
(present and non-empty) and `res.status === 429`.  `none` means no
`await wait(..)` is executed at all; `some w` means `wait(w)` is awaited,
where `w = none` stands for a `NaN` argument to `setTimeout`. -/
def rateLimitWait (parseDate : String → Option Int) (now : Int) (res : Response) :
    Option (Option Int) :=
  match res.rateLimitReset with
  | some s =>
    if s ≠ "" ∧ res.status = 429 then some (waitValue parseDate now s) else none
  | none => none

/-- Milliseconds actually slept by `setTimeout(resolve, w)`: a `NaN` or
negative argument fires immediately (no wait). -/
def effectiveDelayMs : Option Int → Nat
  | none => 0
  | some n => n.toNat

/-- C4: `isRetryableStatus(status)` returns true if and only if
`status == 429` or `500 ≤ status ≤ 599`; every other integer status is
not retryable. -/
theorem isRetryableStatus_iff (status : Int) :
    isRetryableStatus status = true ↔ (status = 429 ∨ (500 ≤ status ∧ status ≤ 599)) := by
  simp only [isRetryableStatus, Bool.or_eq_true, Bool.and_eq_true, decide_eq_true_eq,
    beq_iff_eq]
  omega

/-- C4 has no hypothesis beyond the universally quantified status, but we
record a closed instance exercising both sides of the boundary. -/
theorem isRetryableStatus_iff_witness :
    (isRetryableStatus 429 = true ∧ isRetryableStatus 500 = true ∧
      isRetryableStatus 599 = true) ∧
    (isRetryableStatus 428 = false ∧ isRetryableStatus 499 = false ∧
      isRetryableStatus 600 = false ∧ isRetryableStatus 200 = false) := by
  refine ⟨⟨?_, ?_, ?_⟩, by decide⟩
  · exact (isRetryableStatus_iff 429).mpr (Or.inl rfl)
  · exact (isRetryableStatus_iff 500).mpr (Or.inr (by decide))
  · exact (isRetryableStatus_iff 599).mpr (Or.inr (by decide))

/-- C6: the rate-limit resolver forces a wait only when the status is 429
and the `RateLimit-Reset` header is present; for any other status or an
absent header no forced wait occurs; and when the header value parses as
an integer by the leading-numeric parse (not NaN, zero and negative
included), the forced wait is that many seconds in milliseconds. -/
theorem rateLimitWait_spec (parseDate : String → Option Int) (now : Int) (res : Response) :
    (rateLimitWait parseDate now res ≠ none →
      res.status = 429 ∧ res.rateLimitReset ≠ none) ∧
    (res.status ≠ 429 → rateLimitWait parseDate now res = none) ∧
    (res.rateLimitReset = none → rateLimitWait parseDate now res = none) ∧
    (∀ s n, res.rateLimitReset = some s → res.status = 429 → jsParseInt s = some n →
      rateLimitWait parseDate now res = some (some (n * 1000))) := by
  refine ⟨?_, ?_, ?_, ?_⟩
  · intro h
    cases hh : res.rateLimitReset with
    | none => simp [rateLimitWait, hh] at h
    | some s =>
      by_cases hc : s ≠ "" ∧ res.status = 429
      · exact ⟨hc.2, by simp [hh]⟩
      · simp only [rateLimitWait, hh] at h
        rw [if_neg hc] at h
        simp at h
  · intro h
    cases hh : res.rateLimitReset with
    | none => simp [rateLimitWait, hh]
    | some s =>
      simp only [rateLimitWait, hh]
      rw [if_neg (fun hc => h hc.2)]
  · intro h
    simp [rateLimitWait, h]
  · intro s n hs h429 hparse
    have hne : s ≠ "" := by
      intro he
      rw [he] at hparse
      simp [jsParseInt, List.takeWhile] at hparse
    simp only [rateLimitWait, hs]
    rw [if_pos ⟨hne, h429⟩]
    simp [waitValue, hparse]

/-- Closed instance of C6: a 429 response with `RateLimit-Reset: 7`
forces a 7000 ms wait, and a 200 response with the same header forces
none. -/
theorem rateLimitWait_spec_witness :
    rateLimitWait (fun _ => none) 0
      { status := 429, rateLimitReset := some "7", body := "" } = some (some 7000) ∧
    rateLimitWait (fun _ => none) 0
      { status := 200, rateLimitReset := some "7", body := "" } = none := by
  constructor
  · exact (rateLimitWait_spec (fun _ => none) 0
      { status := 429, rateLimitReset := some "7", body := "" }).2.2.2 "7" 7 rfl rfl (by decide)
  · exact (rateLimitWait_spec (fun _ => none) 0
      { status := 200, rateLimitReset := some "7", body := "" }).2.1 (by decide)

/-- Observable events of one logical call, in order: an invocation of the
wrapped operation (`fetch(...args)` with the attempt number `tries`, as
`async-retry` counts from 1), a forced rate-limit sleep (`await wait(w)`,
with `none` for a `NaN` argument), or an inter-attempt backoff sleep
performed by the retry primitive. -/
inductive Ev (α : Type) where
  | invoke (args : α) (tries : Nat)
  | forcedSleep (ms : Option Int)
  | backoffSleep (ms : Nat)
deriving Repr, DecidableEq

/-- How one attempt's promise chain settles, as seen by the retry
primitive: resolve with a response, reject with an error (`raise`), or
abort via `bail`. -/
inductive AttemptOutcome where
  | resolve (res : Response)
  | rejectErr (e : JsError)
  | bailErr (e : JsError)
deriving Repr, DecidableEq

/-- Final outcome of the orchestrator's promise. -/
inductive RetryResult where
  | resolved (res : Response)
  | rejected (e : JsError)
deriving Repr, DecidableEq

/-- One attempt of the callback passed to `_retry` in src/index.js lines
63–76: invoke `fetch(...args)`; on a fulfilled response, first perform
the forced rate-limit wait (lines 67–72), then throw the synthetic
`RetryableError` when the status is retryable and `tries < max + 1`
(lines 64 and 75), otherwise resolve with the response; on a thrown
error, re-raise it when `isRetryableError` holds and `bail` otherwise
(line 76).  The wrapped operation is modelled as a function of the
argument list and the attempt number. -/
def attemptBody {α : Type} (max : Nat) (fetch : α → Nat → FetchOutcome)
    (parseDate : String → Option Int) (now : Int) (a : α) (tries : Nat) :
    List (Ev α) × AttemptOutcome :=
  match fetch a tries with
  | FetchOutcome.ok res =>
    let sleeps : List (Ev α) :=
      match rateLimitWait parseDate now res with
      | some w => [Ev.forcedSleep w]
      | none => []
    if isRetryableStatus res.status && decide (tries < max + 1) then
      (Ev.invoke a tries :: sleeps, AttemptOutcome.rejectErr retryableError)
    else
      (Ev.invoke a tries :: sleeps, AttemptOutcome.resolve res)
  | FetchOutcome.thrown e =>
    if isRetryableError e then ([Ev.invoke a tries], AttemptOutcome.rejectErr e)
    else ([Ev.invoke a tries], AttemptOutcome.bailErr e)

/-- Modelled from the spec: the generic bounded-retry primitive (the
`async-retry` npm dependency, whose code is not part of this repository)
"treated as an external collaborator providing: bounded attempt count,
minimum delay, growth factor, and a bail escape to stop retrying
immediately".  `remaining` counts the retries still allowed.  A resolved
attempt resolves the outer promise; a bailed attempt rejects it
immediately; a rejected attempt is retried after a delay of
`minTimeout * factor ^ (tries - 1)` while retries remain, and once the
bound is exhausted the outer promise rejects, "re-raising the original
error unchanged (not wrapped)". -/
def asyncRetryGo {α : Type} (minTimeout factor : Nat)
    (cb : Nat → List (Ev α) × AttemptOutcome) : Nat → Nat → List (Ev α) × RetryResult
  | tries, 0 =>
    ((cb tries).1,
      match (cb tries).2 with
      | AttemptOutcome.resolve res => RetryResult.resolved res
      | AttemptOutcome.rejectErr e => RetryResult.rejected e
      | AttemptOutcome.bailErr e => RetryResult.rejected e)
  | tries, r + 1 =>
    match (cb tries).2 with
    | AttemptOutcome.resolve res => ((cb tries).1, RetryResult.resolved res)
    | AttemptOutcome.rejectErr _ =>
      ((cb tries).1 ++ Ev.backoffSleep (minTimeout * factor ^ (tries - 1)) ::
          (asyncRetryGo minTimeout factor cb (tries + 1) r).1,
        (asyncRetryGo minTimeout factor cb (tries + 1) r).2)
    | AttemptOutcome.bailErr e => ((cb tries).1, RetryResult.rejected e)

/-- The orchestrator, src/index.js lines 63–81: `retry(max, fetch)`
applied to an argument list runs the attempt callback through the retry
primitive with `retries: max`, `minTimeout: 10`, `factor: 5`, starting at
attempt number 1.  Returns the event trace and the settled outcome. -/
def retry {α : Type} (max : Nat) (fetch : α → Nat → FetchOutcome)
    (parseDate : String → Option Int) (now : Int) (a : α) :
    List (Ev α) × RetryResult :=
  asyncRetryGo 10 5 (attemptBody max fetch parseDate now a) 1 max

/-- Number of invocations of the wrapped operation recorded in a trace. -/
def countInvokes {α : Type} (evs : List (Ev α)) : Nat :=
  (evs.filter (fun ev => match ev with | Ev.invoke _ _ => true | _ => false)).length

/-- Every invocation event in a trace carries the given argument list. -/
def invokeArgsAre {α : Type} [DecidableEq α] (a : α) : Ev α → Bool
  | Ev.invoke b _ => b == a
  | _ => true

lemma countInvokes_nil {α : Type} : countInvokes ([] : List (Ev α)) = 0 := rfl

lemma countInvokes_cons_invoke {α : Type} (a : α) (t : Nat) (l : List (Ev α)) :
    countInvokes (Ev.invoke a t :: l) = countInvokes l + 1 := by
  simp [countInvokes, List.filter_cons]

lemma countInvokes_cons_forced {α : Type} (w : Option Int) (l : List (Ev α)) :
    countInvokes (Ev.forcedSleep w :: l) = countInvokes l := by
  simp [countInvokes, List.filter_cons]

lemma countInvokes_cons_backoff {α : Type} (m : Nat) (l : List (Ev α)) :
    countInvokes (Ev.backoffSleep m :: l) = countInvokes l := by
  simp [countInvokes, List.filter_cons]

lemma countInvokes_append {α : Type} (l1 l2 : List (Ev α)) :
    countInvokes (l1 ++ l2) = countInvokes l1 + countInvokes l2 := by
  simp [countInvokes, List.filter_append]

/-- Each attempt's trace records exactly one invocation. -/
lemma attemptBody_countInvokes {α : Type} (max : Nat) (fetch : α → Nat → FetchOutcome)
    (parseDate : String → Option Int) (now : Int) (a : α) (t : Nat) :
    countInvokes (attemptBody max fetch parseDate now a t).1 = 1 := by
  unfold attemptBody
  cases hf : fetch a t with
  | ok res =>
    cases hw : rateLimitWait parseDate now res with
    | none =>
      by_cases h : (isRetryableStatus res.status && decide (t < max + 1)) = true
      · simp [hw, h, countInvokes_cons_invoke, countInvokes_nil]
      · simp [hw, h, countInvokes_cons_invoke, countInvokes_nil]
    | some w =>
      by_cases h : (isRetryableStatus res.status && decide (t < max + 1)) = true
      · simp [hw, h, countInvokes_cons_invoke, countInvokes_cons_forced, countInvokes_nil]
      · simp [hw, h, countInvokes_cons_invoke, countInvokes_cons_forced, countInvokes_nil]
  | thrown e =>
    by_cases h : isRetryableError e = true
    · simp [h, countInvokes_cons_invoke, countInvokes_nil]
    · simp [h, countInvokes_cons_invoke, countInvokes_nil]

/-- Each attempt's trace starts with its invocation event. -/
lemma attemptBody_trace_head {α : Type} (max : Nat) (fetch : α → Nat → FetchOutcome)
    (parseDate : String → Option Int) (now : Int) (a : α) (t : Nat) :
    ∃ rest, (attemptBody max fetch parseDate now a t).1 = Ev.invoke a t :: rest := by
  unfold attemptBody
  cases hf : fetch a t with
  | ok res =>
    by_cases h : (isRetryableStatus res.status && decide (t < max + 1)) = true
    · simp only [h, if_true]; exact ⟨_, rfl⟩
    · simp only [h, if_false]; exact ⟨_, rfl⟩
  | thrown e =>
    by_cases h : isRetryableError e = true
    · simp only [h, if_true]; exact ⟨_, rfl⟩
    · simp only [h, if_false]; exact ⟨_, rfl⟩

/-- The loop's trace starts with the head of the current attempt's trace. -/
lemma asyncRetryGo_trace_head {α : Type} (cb : Nat → List (Ev α) × AttemptOutcome)
    (t r : Nat) (ev : Ev α) (rest0 : List (Ev α)) (h : (cb t).1 = ev :: rest0) :
    ∃ rest, (asyncRetryGo 10 5 cb t r).1 = ev :: rest := by
  cases r with
  | zero => exact ⟨rest0, by simp only [asyncRetryGo]; rw [h]⟩
  | succ r =>
    cases hcb : (cb t).2 with
    | resolve res =>
      refine ⟨rest0, ?_⟩
      simp only [asyncRetryGo]
      rw [hcb, h]
    | rejectErr e =>
      refine ⟨rest0 ++ Ev.backoffSleep (10 * 5 ^ (t - 1)) ::
        (asyncRetryGo 10 5 cb (t + 1) r).1, ?_⟩
      simp only [asyncRetryGo]
      rw [hcb, h]
      rfl
    | bailErr e =>
      refine ⟨rest0, ?_⟩
      simp only [asyncRetryGo]
      rw [hcb, h]

/-- When every attempt up to `max` rejects and attempt `max + 1` resolves,
the loop started at `(t, r)` with `t + r = max + 1` performs `r + 1`
attempts and resolves with the final response. -/
lemma asyncRetryGo_resolved_after {α : Type} (cb : Nat → List (Ev α) × AttemptOutcome)
    (max : Nat) (finalRes : Response)
    (hone : ∀ t, countInvokes (cb t).1 = 1)
    (hrej : ∀ t, t ≤ max → ∃ e, (cb t).2 = AttemptOutcome.rejectErr e)
    (hres : (cb (max + 1)).2 = AttemptOutcome.resolve finalRes) :
    ∀ r t, t + r = max + 1 →
      countInvokes (asyncRetryGo 10 5 cb t r).1 = r + 1 ∧
      (asyncRetryGo 10 5 cb t r).2 = RetryResult.resolved finalRes := by
  intro r
  induction r with
  | zero =>
    intro t ht
    have heq : t = max + 1 := by omega
    subst heq
    simp only [asyncRetryGo]
    rw [hres]
    exact ⟨by simpa using hone (max + 1), rfl⟩
  | succ r ih =>
    intro t ht
    obtain ⟨e, he⟩ := hrej t (by omega)
    have ihr := ih (t + 1) (by omega)
    simp only [asyncRetryGo]
    rw [he]
    refine ⟨?_, ihr.2⟩
    rw [countInvokes_append, countInvokes_cons_backoff, hone t, ihr.1]
    omega

/-- When every attempt rejects, the loop started at `(t, r)` performs
`r + 1` attempts and rejects with the error of the final attempt. -/
lemma asyncRetryGo_rejected_all {α : Type} (cb : Nat → List (Ev α) × AttemptOutcome)
    (err : Nat → JsError)
    (hone : ∀ t, countInvokes (cb t).1 = 1)
    (hrej : ∀ t, (cb t).2 = AttemptOutcome.rejectErr (err t)) :
    ∀ r t,
      countInvokes (asyncRetryGo 10 5 cb t r).1 = r + 1 ∧
      (asyncRetryGo 10 5 cb t r).2 = RetryResult.rejected (err (t + r)) := by
  intro r
  induction r with
  | zero =>
    intro t
    simp only [asyncRetryGo]
    rw [hrej t]
    exact ⟨by simpa using hone t, rfl⟩
  | succ r ih =>
    intro t
    have ihr := ih (t + 1)
    simp only [asyncRetryGo]
    rw [hrej t]
    refine ⟨?_, ?_⟩
    · rw [countInvokes_append, countInvokes_cons_backoff, hone t, ihr.1]
      omega
    · rw [ihr.2]
      have : t + 1 + r = t + (r + 1) := by omega
      rw [this]

/-- When the first attempt resolves, the loop resolves at once with that
attempt's trace. -/
lemma asyncRetryGo_first_resolve {α : Type} (cb : Nat → List (Ev α) × AttemptOutcome)
    (r : Nat) (res : Response) (h : (cb 1).2 = AttemptOutcome.resolve res) :
    asyncRetryGo 10 5 cb 1 r = ((cb 1).1, RetryResult.resolved res) := by
  cases r with
  | zero => simp only [asyncRetryGo]; rw [h]
  | succ r => simp only [asyncRetryGo]; rw [h]

/-- When the first attempt bails, the loop rejects at once with that
attempt's trace. -/
lemma asyncRetryGo_first_bail {α : Type} (cb : Nat → List (Ev α) × AttemptOutcome)
    (r : Nat) (e : JsError) (h : (cb 1).2 = AttemptOutcome.bailErr e) :
    asyncRetryGo 10 5 cb 1 r = ((cb 1).1, RetryResult.rejected e) := by
  cases r with
  | zero => simp only [asyncRetryGo]; rw [h]
  | succ r => simp only [asyncRetryGo]; rw [h]

/-- Shape of an attempt whose response has a retryable status, no forced
wait, and attempts remaining: the synthetic `RetryableError` is thrown. -/
lemma attemptBody_retryable_noWait {α : Type} (max : Nat) (fetch : α → Nat → FetchOutcome)
    (parseDate : String → Option Int) (now : Int) (a : α) (t : Nat) (res : Response)
    (hf : fetch a t = FetchOutcome.ok res)
    (hst : isRetryableStatus res.status = true)
    (hw : rateLimitWait parseDate now res = none)
    (ht : t < max + 1) :
    attemptBody max fetch parseDate now a t =
      ([Ev.invoke a t], AttemptOutcome.rejectErr retryableError) := by
  unfold attemptBody
  rw [hf]
  simp [hw, hst, ht]

/-- Shape of the final allowed attempt on a response with no forced wait:
the response is resolved unchanged, whatever its status. -/
lemma attemptBody_resolve_noWait {α : Type} (max : Nat) (fetch : α → Nat → FetchOutcome)
    (parseDate : String → Option Int) (now : Int) (a : α) (t : Nat) (res : Response)
    (hf : fetch a t = FetchOutcome.ok res)
    (hw : rateLimitWait parseDate now res = none)
    (hstop : isRetryableStatus res.status = false ∨ ¬ t < max + 1) :
    attemptBody max fetch parseDate now a t =
      ([Ev.invoke a t], AttemptOutcome.resolve res) := by
  unfold attemptBody
  rw [hf]
  have hcond : (isRetryableStatus res.status && decide (t < max + 1)) = false := by
    rcases hstop with h | h
    · simp [h]
    · simp [h]
  simp [hw, hcond]

/-- A 500-class response never triggers the rate-limit wait (its status
is not 429). -/
lemma rateLimitWait_not429 (parseDate : String → Option Int) (now : Int)
    (res : Response) (h : res.status ≠ 429) :
    rateLimitWait parseDate now res = none :=
  (rateLimitWait_spec parseDate now res).2.1 h

/-- C1: for every `max ≥ 2`, an operation fulfilling with a status-500
response on every call is invoked exactly `max + 1` times, and the
orchestrator resolves normally with the final 500 response — no error is
raised because of the bad status. -/
theorem retry_500_exhausts {α : Type} (max : Nat) (parseDate : String → Option Int)
    (now : Int) (a : α) (hdr : Nat → Option String) (body : Nat → String)
    (fetch : α → Nat → FetchOutcome)
    (_hmax : 2 ≤ max)
    (hf : ∀ t, fetch a t = FetchOutcome.ok ⟨500, hdr t, body t⟩) :
    countInvokes (retry max fetch parseDate now a).1 = max + 1 ∧
    (retry max fetch parseDate now a).2 =
      RetryResult.resolved ⟨500, hdr (max + 1), body (max + 1)⟩ := by
  have hw : ∀ t, rateLimitWait parseDate now ⟨500, hdr t, body t⟩ = none := by
    intro t
    exact rateLimitWait_not429 parseDate now _ (show (500 : Int) ≠ 429 by decide)
  have hrej : ∀ t, t ≤ max → ∃ e,
      (attemptBody max fetch parseDate now a t).2 = AttemptOutcome.rejectErr e := by
    intro t ht
    refine ⟨retryableError, ?_⟩
    rw [attemptBody_retryable_noWait max fetch parseDate now a t _ (hf t)
      (show isRetryableStatus (500 : Int) = true by decide) (hw t) (by omega)]
  have hres : (attemptBody max fetch parseDate now a (max + 1)).2 =
      AttemptOutcome.resolve ⟨500, hdr (max + 1), body (max + 1)⟩ := by
    rw [attemptBody_resolve_noWait max fetch parseDate now a (max + 1) _ (hf (max + 1))
      (hw (max + 1)) (Or.inr (by omega))]
  exact asyncRetryGo_resolved_after (attemptBody max fetch parseDate now a) max
    ⟨500, hdr (max + 1), body (max + 1)⟩
    (attemptBody_countInvokes max fetch parseDate now a) hrej hres max 1 (by omega)

/-- Closed instance of C1 at `max = 2`: three invocations, the final 500
response is resolved. -/
theorem retry_500_exhausts_witness :
    countInvokes (retry 2 (fun (_ : Unit) _ => FetchOutcome.ok ⟨500, none, ""⟩)
      (fun _ => none) 0 ()).1 = 3 ∧
    (retry 2 (fun (_ : Unit) _ => FetchOutcome.ok ⟨500, none, ""⟩)
      (fun _ => none) 0 ()).2 = RetryResult.resolved ⟨500, none, ""⟩ :=
  retry_500_exhausts 2 (fun _ => none) 0 () (fun _ => none) (fun _ => "")
    (fun _ _ => FetchOutcome.ok ⟨500, none, ""⟩) (by decide) (fun _ => rfl)

/-- C2: for every `max ≥ 0`, an operation that fulfills on its first call
with a response whose status is not retryable (e.g. 200 or 410) is
invoked exactly once, and that response is returned unchanged. -/
theorem retry_terminal_status_once {α : Type} (max : Nat) (parseDate : String → Option Int)
    (now : Int) (a : α) (res : Response) (fetch : α → Nat → FetchOutcome)
    (hf : fetch a 1 = FetchOutcome.ok res)
    (hst : isRetryableStatus res.status = false) :
    countInvokes (retry max fetch parseDate now a).1 = 1 ∧
    (retry max fetch parseDate now a).2 = RetryResult.resolved res := by
  have h429 : res.status ≠ 429 := by
    intro h
    rw [isRetryableStatus, h] at hst
    simp at hst
  have hw := rateLimitWait_not429 parseDate now res h429
  have hcb := attemptBody_resolve_noWait max fetch parseDate now a 1 res hf hw (Or.inl hst)
  have hgo := asyncRetryGo_first_resolve (attemptBody max fetch parseDate now a) max res
    (by rw [hcb])
  unfold retry
  rw [hgo, hcb]
  exact ⟨by simp [countInvokes_cons_invoke, countInvokes_nil], rfl⟩

/-- Closed instance of C2 at `max = 3` with a 410 response. -/
theorem retry_terminal_status_once_witness :
    countInvokes (retry 3 (fun (_ : Unit) _ => FetchOutcome.ok ⟨410, none, "failed"⟩)
      (fun _ => none) 0 ()).1 = 1 ∧
    (retry 3 (fun (_ : Unit) _ => FetchOutcome.ok ⟨410, none, "failed"⟩)
      (fun _ => none) 0 ()).2 = RetryResult.resolved ⟨410, none, "failed"⟩ :=
  retry_terminal_status_once 3 (fun _ => none) 0 () ⟨410, none, "failed"⟩
    (fun _ _ => FetchOutcome.ok ⟨410, none, "failed"⟩) rfl (by decide)

/-- C3: for every `max` (in particular `max = 2`), an operation that
throws a retryable-kind error on every call is invoked exactly `max + 1`
times and the orchestrator rejects with the very error thrown on the
last attempt — same name and message, not wrapped. -/
theorem retry_retryable_error_exhausts {α : Type} (max : Nat)
    (parseDate : String → Option Int) (now : Int) (a : α) (err : Nat → JsError)
    (fetch : α → Nat → FetchOutcome)
    (hf : ∀ t, fetch a t = FetchOutcome.thrown (err t))
    (hre : ∀ t, isRetryableError (err t) = true) :
    countInvokes (retry max fetch parseDate now a).1 = max + 1 ∧
    (retry max fetch parseDate now a).2 = RetryResult.rejected (err (max + 1)) := by
  have hrej : ∀ t, (attemptBody max fetch parseDate now a t).2 =
      AttemptOutcome.rejectErr (err t) := by
    intro t
    unfold attemptBody
    rw [hf t]
    simp [hre t]
  have := asyncRetryGo_rejected_all (attemptBody max fetch parseDate now a) err
    (attemptBody_countInvokes max fetch parseDate now a) hrej max 1
  unfold retry
  refine ⟨this.1, ?_⟩
  rw [this.2]
  have h1 : 1 + max = max + 1 := by omega
  rw [h1]

/-- Closed instance of C3 at `max = 2` with a constant `FetchError`:
three invocations, rejected with the original error, name and message
preserved. -/
theorem retry_retryable_error_exhausts_witness :
    countInvokes (retry 2
      (fun (_ : Unit) _ => FetchOutcome.thrown ⟨true, "FetchError", "Fetch failed"⟩)
      (fun _ => none) 0 ()).1 = 3 ∧
    (retry 2
      (fun (_ : Unit) _ => FetchOutcome.thrown ⟨true, "FetchError", "Fetch failed"⟩)
      (fun _ => none) 0 ()).2 =
      RetryResult.rejected ⟨true, "FetchError", "Fetch failed"⟩ :=
  retry_retryable_error_exhausts 2 (fun _ => none) 0 ()
    (fun _ => ⟨true, "FetchError", "Fetch failed"⟩)
    (fun _ _ => FetchOutcome.thrown ⟨true, "FetchError", "Fetch failed"⟩)
    (fun _ => rfl)
    (fun _ => show isRetryableError ⟨true, "FetchError", "Fetch failed"⟩ = true by decide)

/-- C5: a thrown value is classified retryable iff it is an `Error`
instance whose name is exactly one of `RetryableError`, `FetchError`,
`AbortError`; and any other thrown value — a non-`Error` that merely
looks like an error, or an `Error` with another name — is terminal: for
every `max`, the operation is invoked exactly once and the error is
re-raised immediately, consuming no retry attempt. -/
theorem isRetryableError_allowlist :
    (∀ e : JsError, isRetryableError e = true ↔
      (e.isError = true ∧ (e.name = "RetryableError" ∨ e.name = "FetchError" ∨
        e.name = "AbortError"))) ∧
    (∀ (α : Type) (max : Nat) (parseDate : String → Option Int) (now : Int) (a : α)
      (e : JsError) (fetch : α → Nat → FetchOutcome),
      fetch a 1 = FetchOutcome.thrown e → isRetryableError e = false →
      countInvokes (retry max fetch parseDate now a).1 = 1 ∧
      (retry max fetch parseDate now a).2 = RetryResult.rejected e) := by
  constructor
  · intro e
    simp [isRetryableError, knownErrors, instanceOfName, Bool.and_eq_true,
      Bool.or_eq_true, beq_iff_eq]
  · intro α max parseDate now a e fetch hf hre
    have hcb : attemptBody max fetch parseDate now a 1 =
        ([Ev.invoke a 1], AttemptOutcome.bailErr e) := by
      unfold attemptBody
      rw [hf]
      simp [hre]
    have hgo := asyncRetryGo_first_bail (attemptBody max fetch parseDate now a) max e
      (by rw [hcb])
    unfold retry
    rw [hgo, hcb]
    exact ⟨by simp [countInvokes_cons_invoke, countInvokes_nil], rfl⟩

/-- Closed instance of C5: an `Error` named `RandomError` with `max = 3`
is invoked once and re-raised unchanged, and both sides of the
classification are exercised. -/
theorem isRetryableError_allowlist_witness :
    countInvokes (retry 3
      (fun (_ : Unit) _ => FetchOutcome.thrown ⟨true, "RandomError", "Yeet"⟩)
      (fun _ => none) 0 ()).1 = 1 ∧
    (retry 3
      (fun (_ : Unit) _ => FetchOutcome.thrown ⟨true, "RandomError", "Yeet"⟩)
      (fun _ => none) 0 ()).2 = RetryResult.rejected ⟨true, "RandomError", "Yeet"⟩ :=
  isRetryableError_allowlist.2 Unit 3 (fun _ => none) 0 () ⟨true, "RandomError", "Yeet"⟩
    (fun _ _ => FetchOutcome.thrown ⟨true, "RandomError", "Yeet"⟩) rfl (by decide)

lemma asyncRetryGo_snd_resolve {α : Type} (cb : Nat → List (Ev α) × AttemptOutcome)
    (t r : Nat) (res : Response) (h : (cb t).2 = AttemptOutcome.resolve res) :
    (asyncRetryGo 10 5 cb t r).2 = RetryResult.resolved res := by
  cases r <;> simp [asyncRetryGo, h]

lemma asyncRetryGo_snd_bail {α : Type} (cb : Nat → List (Ev α) × AttemptOutcome)
    (t r : Nat) (e : JsError) (h : (cb t).2 = AttemptOutcome.bailErr e) :
    (asyncRetryGo 10 5 cb t r).2 = RetryResult.rejected e := by
  cases r <;> simp [asyncRetryGo, h]

lemma asyncRetryGo_snd_reject_zero {α : Type} (cb : Nat → List (Ev α) × AttemptOutcome)
    (t : Nat) (e : JsError) (h : (cb t).2 = AttemptOutcome.rejectErr e) :
    (asyncRetryGo 10 5 cb t 0).2 = RetryResult.rejected e := by
  simp [asyncRetryGo, h]

lemma asyncRetryGo_snd_reject_succ {α : Type} (cb : Nat → List (Ev α) × AttemptOutcome)
    (t r : Nat) (e : JsError) (h : (cb t).2 = AttemptOutcome.rejectErr e) :
    (asyncRetryGo 10 5 cb t (r + 1)).2 = (asyncRetryGo 10 5 cb (t + 1) r).2 := by
  simp [asyncRetryGo, h]

lemma asyncRetryGo_fst_reject_succ {α : Type} (cb : Nat → List (Ev α) × AttemptOutcome)
    (t r : Nat) (e : JsError) (h : (cb t).2 = AttemptOutcome.rejectErr e) :
    (asyncRetryGo 10 5 cb t (r + 1)).1 =
      (cb t).1 ++ Ev.backoffSleep (10 * 5 ^ (t - 1)) :: (asyncRetryGo 10 5 cb (t + 1) r).1 := by
  simp [asyncRetryGo, h]

lemma attemptBody_snd_ok_pos {α : Type} (max : Nat) (fetch : α → Nat → FetchOutcome)
    (parseDate : String → Option Int) (now : Int) (a : α) (t : Nat) (res : Response)
    (hf : fetch a t = FetchOutcome.ok res)
    (hc : (isRetryableStatus res.status && decide (t < max + 1)) = true) :
    (attemptBody max fetch parseDate now a t).2 = AttemptOutcome.rejectErr retryableError := by
  unfold attemptBody
  rw [hf]
  simp [hc]

lemma attemptBody_snd_ok_neg {α : Type} (max : Nat) (fetch : α → Nat → FetchOutcome)
    (parseDate : String → Option Int) (now : Int) (a : α) (t : Nat) (res : Response)
    (hf : fetch a t = FetchOutcome.ok res)
    (hc : (isRetryableStatus res.status && decide (t < max + 1)) = false) :
    (attemptBody max fetch parseDate now a t).2 = AttemptOutcome.resolve res := by
  unfold attemptBody
  rw [hf]
  simp [hc]

lemma attemptBody_snd_thrown_pos {α : Type} (max : Nat) (fetch : α → Nat → FetchOutcome)
    (parseDate : String → Option Int) (now : Int) (a : α) (t : Nat) (e : JsError)
    (hf : fetch a t = FetchOutcome.thrown e) (hr : isRetryableError e = true) :
    (attemptBody max fetch parseDate now a t).2 = AttemptOutcome.rejectErr e := by
  unfold attemptBody
  rw [hf]
  simp [hr]

lemma attemptBody_snd_thrown_neg {α : Type} (max : Nat) (fetch : α → Nat → FetchOutcome)
    (parseDate : String → Option Int) (now : Int) (a : α) (t : Nat) (e : JsError)
    (hf : fetch a t = FetchOutcome.thrown e) (hr : isRetryableError e = false) :
    (attemptBody max fetch parseDate now a t).2 = AttemptOutcome.bailErr e := by
  unfold attemptBody
  rw [hf]
  simp [hr]

/-- Any rejection of the loop carries an error that some attempt's
invocation of the wrapped operation actually threw: the synthetic
`RetryableError` constructed by `forceRetry` is thrown only while an
attempt remains, so it never becomes the final rejection. -/
lemma asyncRetryGo_rejected_source {α : Type} (max : Nat) (fetch : α → Nat → FetchOutcome)
    (parseDate : String → Option Int) (now : Int) (a : α) (e : JsError) :
    ∀ r t, t + r = max + 1 →
      (asyncRetryGo 10 5 (attemptBody max fetch parseDate now a) t r).2 =
        RetryResult.rejected e →
      ∃ u, t ≤ u ∧ u ≤ max + 1 ∧ fetch a u = FetchOutcome.thrown e := by
  intro r
  induction r with
  | zero =>
    intro t ht h
    cases hf : fetch a t with
    | ok res =>
      have hc : (isRetryableStatus res.status && decide (t < max + 1)) = false := by
        have hlt : ¬ t < max + 1 := by omega
        simp [hlt]
      have hcb := attemptBody_snd_ok_neg max fetch parseDate now a t res hf hc
      rw [asyncRetryGo_snd_resolve _ _ _ _ hcb] at h
      simp at h
    | thrown e2 =>
      by_cases hr : isRetryableError e2 = true
      · have hcb := attemptBody_snd_thrown_pos max fetch parseDate now a t e2 hf hr
        rw [asyncRetryGo_snd_reject_zero _ _ _ hcb] at h
        simp at h
        subst h
        exact ⟨t, le_refl t, by omega, hf⟩
      · have hcb := attemptBody_snd_thrown_neg max fetch parseDate now a t e2 hf
          (by simpa using hr)
        rw [asyncRetryGo_snd_bail _ _ _ _ hcb] at h
        simp at h
        subst h
        exact ⟨t, le_refl t, by omega, hf⟩
  | succ r ih =>
    intro t ht h
    cases hf : fetch a t with
    | ok res =>
      by_cases hc : (isRetryableStatus res.status && decide (t < max + 1)) = true
      · have hcb := attemptBody_snd_ok_pos max fetch parseDate now a t res hf hc
        rw [asyncRetryGo_snd_reject_succ _ _ _ _ hcb] at h
        obtain ⟨u, hu1, hu2, hu3⟩ := ih (t + 1) (by omega) h
        exact ⟨u, by omega, hu2, hu3⟩
      · have hcb := attemptBody_snd_ok_neg max fetch parseDate now a t res hf
          (by simpa using hc)
        rw [asyncRetryGo_snd_resolve _ _ _ _ hcb] at h
        simp at h
    | thrown e2 =>
      by_cases hr : isRetryableError e2 = true
      · have hcb := attemptBody_snd_thrown_pos max fetch parseDate now a t e2 hf hr
        rw [asyncRetryGo_snd_reject_succ _ _ _ _ hcb] at h
        obtain ⟨u, hu1, hu2, hu3⟩ := ih (t + 1) (by omega) h
        exact ⟨u, by omega, hu2, hu3⟩
      · have hcb := attemptBody_snd_thrown_neg max fetch parseDate now a t e2 hf
          (by simpa using hr)
        rw [asyncRetryGo_snd_bail _ _ _ _ hcb] at h
        simp at h
        subst h
        exact ⟨t, le_refl t, by omega, hf⟩

/-- C9: the synthetic `RetryableError` is never visible to the caller.
Whenever the orchestrator's promise rejects, the rejection error is one
the wrapped operation itself threw on some attempt; in particular, when
the operation never throws an error named `RetryableError`, the caller
never observes one. -/
theorem retry_synthetic_never_visible {α : Type} (max : Nat)
    (fetch : α → Nat → FetchOutcome) (parseDate : String → Option Int) (now : Int)
    (a : α) (e : JsError)
    (h : (retry max fetch parseDate now a).2 = RetryResult.rejected e) :
    (∃ u, 1 ≤ u ∧ u ≤ max + 1 ∧ fetch a u = FetchOutcome.thrown e) ∧
    ((∀ u e2, fetch a u = FetchOutcome.thrown e2 → e2.name ≠ "RetryableError") →
      e.name ≠ "RetryableError") := by
  have hsrc := asyncRetryGo_rejected_source max fetch parseDate now a e max 1 (by omega) h
  refine ⟨hsrc, fun hop => ?_⟩
  obtain ⟨u, _, _, hu⟩ := hsrc
  exact hop u e hu

/-- Closed instance of C9: with `max = 0` and an operation always
throwing a `FetchError`, the rejection error is traced back to the
operation's own throw. -/
theorem retry_synthetic_never_visible_witness :
    (∃ u, 1 ≤ u ∧ u ≤ 1 ∧
      (fun (_ : Unit) (_ : Nat) => FetchOutcome.thrown ⟨true, "FetchError", "boom"⟩) () u =
        FetchOutcome.thrown ⟨true, "FetchError", "boom"⟩) ∧
    ((∀ u e2,
      (fun (_ : Unit) (_ : Nat) => FetchOutcome.thrown ⟨true, "FetchError", "boom"⟩) () u =
        FetchOutcome.thrown e2 → e2.name ≠ "RetryableError") →
      JsError.name ⟨true, "FetchError", "boom"⟩ ≠ "RetryableError") :=
  retry_synthetic_never_visible 0
    (fun _ _ => FetchOutcome.thrown ⟨true, "FetchError", "boom"⟩)
    (fun _ => none) 0 () ⟨true, "FetchError", "boom"⟩ (by decide)

/-- Shape of an attempt whose response is a 429 carrying a non-empty
`RateLimit-Reset` header: the invocation is followed by the forced sleep,
and only then is the retry decision made from the attempt budget. -/
lemma attemptBody_429 {α : Type} (max : Nat) (fetch : α → Nat → FetchOutcome)
    (parseDate : String → Option Int) (now : Int) (a : α) (t : Nat) (s body : String)
    (hs : s ≠ "") (hf : fetch a t = FetchOutcome.ok ⟨429, some s, body⟩) :
    attemptBody max fetch parseDate now a t =
      ([Ev.invoke a t, Ev.forcedSleep (waitValue parseDate now s)],
        if t < max + 1 then AttemptOutcome.rejectErr retryableError
        else AttemptOutcome.resolve ⟨429, some s, body⟩) := by
  unfold attemptBody
  rw [hf]
  have hw : rateLimitWait parseDate now ⟨429, some s, body⟩ =
      some (waitValue parseDate now s) := by
    simp [rateLimitWait, hs]
  have hst : isRetryableStatus (429 : Int) = true := by decide
  by_cases h : t < max + 1
  · simp [hw, hst, h]
  · simp [hw, hst, h]

/-- C7: when a 429 response carries a `RateLimit-Reset` value that is
malformed both as an integer and as a date, the orchestrator does not
crash: the forced sleep's `setTimeout` argument is `NaN` (zero effective
wait), and the loop falls through to the exponential-backoff delay
(10 ms before the second attempt) and invokes the operation again. -/
theorem retry_malformed_reset_fallback {α : Type} (max : Nat)
    (parseDate : String → Option Int) (now : Int) (a : α) (s body : String)
    (fetch : α → Nat → FetchOutcome)
    (hmax : 1 ≤ max) (hs : s ≠ "")
    (hint : jsParseInt s = none) (hdate : parseDate s = none)
    (h1 : fetch a 1 = FetchOutcome.ok ⟨429, some s, body⟩) :
    waitValue parseDate now s = none ∧ effectiveDelayMs none = 0 ∧
    ∃ rest, (retry max fetch parseDate now a).1 =
      Ev.invoke a 1 :: Ev.forcedSleep none :: Ev.backoffSleep 10 ::
        Ev.invoke a 2 :: rest := by
  have hwv : waitValue parseDate now s = none := by
    simp [waitValue, hint, hdate]
  refine ⟨hwv, rfl, ?_⟩
  obtain ⟨m, rfl⟩ : ∃ m, max = m + 1 := ⟨max - 1, by omega⟩
  have hcb := attemptBody_429 (m + 1) fetch parseDate now a 1 s body hs h1
  rw [if_pos (by omega), hwv] at hcb
  obtain ⟨rest0, hhead⟩ := attemptBody_trace_head (m + 1) fetch parseDate now a 2
  obtain ⟨rest1, hgo2⟩ :=
    asyncRetryGo_trace_head (attemptBody (m + 1) fetch parseDate now a) 2 m _ _ hhead
  have hfst := asyncRetryGo_fst_reject_succ (attemptBody (m + 1) fetch parseDate now a)
    1 m retryableError (by rw [hcb])
  refine ⟨rest1, ?_⟩
  unfold retry
  rw [hfst, hgo2, hcb]
  simp

/-- Closed instance of C7: `RateLimit-Reset: oops` with `max = 1`. -/
theorem retry_malformed_reset_fallback_witness :
    waitValue (fun _ => none) 0 "oops" = none ∧ effectiveDelayMs none = 0 ∧
    ∃ rest, (retry 1
      (fun (_ : Unit) t => if t = 1 then FetchOutcome.ok ⟨429, some "oops", ""⟩
        else FetchOutcome.ok ⟨200, none, ""⟩)
      (fun _ => none) 0 ()).1 =
      Ev.invoke () 1 :: Ev.forcedSleep none :: Ev.backoffSleep 10 ::
        Ev.invoke () 2 :: rest :=
  retry_malformed_reset_fallback 1 (fun _ => none) 0 () "oops" ""
    (fun _ t => if t = 1 then FetchOutcome.ok ⟨429, some "oops", ""⟩
      else FetchOutcome.ok ⟨200, none, ""⟩)
    (by decide) (by decide) (by decide) rfl rfl

/-- The trace of a run whose every attempt yields a 429 response with a
truthy `RateLimit-Reset` header: each invocation is immediately followed
by the forced sleep, the inter-attempt backoff separates attempts, and
the final attempt still ends with its forced sleep. -/
def wait429Trace {α : Type} (a : α) (w : Option Int) : Nat → Nat → List (Ev α)
  | t, 0 => [Ev.invoke a t, Ev.forcedSleep w]
  | t, r + 1 =>
    Ev.invoke a t :: Ev.forcedSleep w ::
      Ev.backoffSleep (10 * 5 ^ (t - 1)) :: wait429Trace a w (t + 1) r

lemma wait429Trace_last {α : Type} (a : α) (w : Option Int) :
    ∀ r t, ∃ pre, wait429Trace a w t r = pre ++ [Ev.invoke a (t + r), Ev.forcedSleep w] := by
  intro r
  induction r with
  | zero => intro t; exact ⟨[], by simp [wait429Trace]⟩
  | succ r ih =>
    intro t
    obtain ⟨pre, hp⟩ := ih (t + 1)
    have harith : t + 1 + r = t + (r + 1) := by omega
    rw [harith] at hp
    exact ⟨Ev.invoke a t :: Ev.forcedSleep w :: Ev.backoffSleep (10 * 5 ^ (t - 1)) :: pre,
      by simp [wait429Trace, hp]⟩

lemma asyncRetryGo_429_trace {α : Type} (max : Nat) (fetch : α → Nat → FetchOutcome)
    (parseDate : String → Option Int) (now : Int) (a : α) (s body : String)
    (hs : s ≠ "")
    (hf : ∀ t, fetch a t = FetchOutcome.ok ⟨429, some s, body⟩) :
    ∀ r t, t + r = max + 1 →
      asyncRetryGo 10 5 (attemptBody max fetch parseDate now a) t r =
        (wait429Trace a (waitValue parseDate now s) t r,
          RetryResult.resolved ⟨429, some s, body⟩) := by
  intro r
  induction r with
  | zero =>
    intro t ht
    have hcb := attemptBody_429 max fetch parseDate now a t s body hs (hf t)
    rw [if_neg (by omega)] at hcb
    simp only [asyncRetryGo]
    rw [hcb]
    simp [wait429Trace]
  | succ r ih =>
    intro t ht
    have hcb := attemptBody_429 max fetch parseDate now a t s body hs (hf t)
    rw [if_pos (by omega)] at hcb
    have hih := ih (t + 1) (by omega)
    simp only [asyncRetryGo]
    rw [hcb]
    simp only [hih]
    simp [wait429Trace]

/-- C8: on every fulfilled 429 response carrying a `RateLimit-Reset`
header, the forced wait is performed directly after the invocation and
before the retry-eligibility decision; in a run where every attempt
yields such a response, the whole trace alternates invoke/forced-sleep,
and the wait occurs even on the last allowed attempt, whose response is
then returned rather than retried. -/
theorem retry_429_wait_ordering {α : Type} (max : Nat)
    (parseDate : String → Option Int) (now : Int) (a : α) (s body : String)
    (fetch : α → Nat → FetchOutcome)
    (hs : s ≠ "")
    (hf : ∀ t, fetch a t = FetchOutcome.ok ⟨429, some s, body⟩) :
    retry max fetch parseDate now a =
      (wait429Trace a (waitValue parseDate now s) 1 max,
        RetryResult.resolved ⟨429, some s, body⟩) ∧
    ∃ pre, (retry max fetch parseDate now a).1 =
      pre ++ [Ev.invoke a (max + 1), Ev.forcedSleep (waitValue parseDate now s)] := by
  have h := asyncRetryGo_429_trace max fetch parseDate now a s body hs hf max 1 (by omega)
  refine ⟨h, ?_⟩
  obtain ⟨pre, hp⟩ := wait429Trace_last a (waitValue parseDate now s) max 1
  have harith : 1 + max = max + 1 := by omega
  rw [harith] at hp
  refine ⟨pre, ?_⟩
  unfold retry
  rw [show (asyncRetryGo 10 5 (attemptBody max fetch parseDate now a) 1 max).1 =
    wait429Trace a (waitValue parseDate now s) 1 max by rw [h]]
  exact hp

/-- Closed instance of C8 at `max = 1` with `RateLimit-Reset: 2`: both
attempts sleep 2000 ms right after invoking, including the final one
whose 429 response is returned. -/
theorem retry_429_wait_ordering_witness :
    retry 1 (fun (_ : Unit) _ => FetchOutcome.ok ⟨429, some "2", ""⟩)
      (fun _ => none) 0 () =
      (wait429Trace () (waitValue (fun _ => none) 0 "2") 1 1,
        RetryResult.resolved ⟨429, some "2", ""⟩) ∧
    ∃ pre, (retry 1 (fun (_ : Unit) _ => FetchOutcome.ok ⟨429, some "2", ""⟩)
      (fun _ => none) 0 ()).1 =
      pre ++ [Ev.invoke () 2, Ev.forcedSleep (waitValue (fun _ => none) 0 "2")] :=
  retry_429_wait_ordering 1 (fun _ => none) 0 () "2" ""
    (fun _ _ => FetchOutcome.ok ⟨429, some "2", ""⟩) (by decide) (fun _ => rfl)

/-- Every event of one attempt's trace carries the original arguments. -/
lemma attemptBody_trace_args {α : Type} [DecidableEq α] (max : Nat)
    (fetch : α → Nat → FetchOutcome) (parseDate : String → Option Int) (now : Int)
    (a : α) (t : Nat) :
    ((attemptBody max fetch parseDate now a t).1.all (invokeArgsAre a)) = true := by
  unfold attemptBody
  cases hf : fetch a t with
  | ok res =>
    cases hw : rateLimitWait parseDate now res with
    | none =>
      by_cases h : (isRetryableStatus res.status && decide (t < max + 1)) = true
      · simp [hw, h, invokeArgsAre]
      · simp [hw, h, invokeArgsAre]
    | some w =>
      by_cases h : (isRetryableStatus res.status && decide (t < max + 1)) = true
      · simp [hw, h, invokeArgsAre]
      · simp [hw, h, invokeArgsAre]
  | thrown e =>
    by_cases h : isRetryableError e = true
    · simp [h, invokeArgsAre]
    · simp [h, invokeArgsAre]

lemma asyncRetryGo_invokeArgs {α : Type} [DecidableEq α] (max : Nat)
    (fetch : α → Nat → FetchOutcome) (parseDate : String → Option Int) (now : Int)
    (a : α) :
    ∀ r t, ((asyncRetryGo 10 5 (attemptBody max fetch parseDate now a) t r).1.all
      (invokeArgsAre a)) = true := by
  intro r
  induction r with
  | zero =>
    intro t
    simp only [asyncRetryGo]
    exact attemptBody_trace_args max fetch parseDate now a t
  | succ r ih =>
    intro t
    cases hcb : (attemptBody max fetch parseDate now a t).2 with
    | resolve res =>
      simp only [asyncRetryGo]
      rw [hcb]
      exact attemptBody_trace_args max fetch parseDate now a t
    | rejectErr e =>
      rw [asyncRetryGo_fst_reject_succ _ _ _ _ hcb]
      simp [List.all_append, attemptBody_trace_args max fetch parseDate now a t,
        invokeArgsAre, ih (t + 1)]
    | bailErr e =>
      simp only [asyncRetryGo]
      rw [hcb]
      exact attemptBody_trace_args max fetch parseDate now a t

/-- C10: every invocation of the wrapped operation within one logical
call receives exactly the argument list supplied at the original call
site — every invoke event of the trace carries those arguments, for all
`max` and all operation behaviours. -/
theorem retry_args_invariant {α : Type} [DecidableEq α] (max : Nat)
    (fetch : α → Nat → FetchOutcome) (parseDate : String → Option Int) (now : Int)
    (a : α) :
    ((retry max fetch parseDate now a).1.all (invokeArgsAre a)) = true :=
  asyncRetryGo_invokeArgs max fetch parseDate now a max 1

/-- Closed instance of C10: a three-attempt 500 run records only
invocations with the original argument. -/
theorem retry_args_invariant_witness :
    ((retry 2 (fun (n : Nat) _ => FetchOutcome.ok ⟨500, none, toString n⟩)
      (fun _ => none) 0 41).1.all (invokeArgsAre 41)) = true :=
  retry_args_invariant 2 (fun n _ => FetchOutcome.ok ⟨500, none, toString n⟩)
    (fun _ => none) 0 41

end MinRetry
